import Mathlib

/-!
Verification of the speech-analysis pipeline in `app.py` of the
dementia-screening-app repository.

The Flask handler `analyze` (app.py, lines 57-143) is shallowly embedded
here.  Pure numeric computations are translated directly; the behaviour of
the external libraries is modelled as follows:

* `pydub.AudioSegment.from_file` (line 68) may raise
  `pydub.exceptions.CouldntDecodeError`, a direct subclass of `Exception`
  that is neither `sr.UnknownValueError` nor `sr.RequestError`; hence a
  decode failure reaches the generic `except Exception` handler at
  line 141.  Request-level outcomes are modelled by the `Request` and
  `AudioRequest` inductives.
* `librosa.effects.split` (line 39) is an opaque external segmentation
  routine; it is modelled as an arbitrary function
  `split : List ℚ → List (ℕ × ℕ)` that every theorem quantifies over.
* `librosa.get_duration(y, sr)` (line 94) is `len(y) / sr`.
* `np.mean` and `ndarray.mean(axis=1)` are arithmetic means, embedded as
  `listMean`.
* Python floats are idealised as rationals (`ℚ`); Python's builtin
  `round` (banker's rounding, round-half-to-even) is embedded as
  `pyRound`, and `round(x, 1)` as tenths `pyRound (x * 10)`.
* Python strings are Lean `String`s; `str.split()` with no argument
  (split on runs of whitespace, no empty tokens) is embedded as
  `splitWs` over the character list.
-/

/-- Decimal digit characters of a natural number, most significant first.
Structural recursion on a fuel argument (fuel `n + 1` always suffices,
since the recursive call is on `n / 10 < n` for `n ≥ 10`), so that the
kernel can evaluate it. -/
def natCharsAux : ℕ → ℕ → List Char
  | 0, _ => []
  | fuel + 1, n =>
    if n < 10 then [Nat.digitChar n]
    else natCharsAux fuel (n / 10) ++ [Nat.digitChar (n % 10)]

/-- Decimal representation of a natural number as characters (Python `str`). -/
def natChars (n : ℕ) : List Char := natCharsAux (n + 1) n

/-- Decimal representation of an integer (Python `str` of an `int`). -/
def intStr (n : ℤ) : String :=
  ⟨(if n < 0 then ['-'] else []) ++ natChars n.natAbs⟩

/-- Python `repr` of a float carrying exactly one decimal digit, whose value
is `t / 10` tenths (e.g. `333 ↦ "33.3"`, `0 ↦ "0.0"`). -/
def float1Str (t : ℤ) : String :=
  ⟨(if t < 0 then ['-'] else []) ++
    natChars (t.natAbs / 10) ++ '.' :: [Nat.digitChar (t.natAbs % 10)]⟩

/-- Floor of a rational: Euclidean division of numerator by (positive)
denominator. -/
def ratFloor (q : ℚ) : ℤ := Int.ediv q.num q.den

/-- Python's builtin `round` to an integer: nearest integer, ties to even
(banker's rounding), idealised over `ℚ`. -/
def pyRound (q : ℚ) : ℤ :=
  let f := ratFloor q
  let r := q - (f : ℚ)
  if r < 1 / 2 then f
  else if 1 / 2 < r then f + 1
  else if f % 2 = 0 then f else f + 1

/-- Python `f"{x:.2f}"`: `x` rounded half-to-even to hundredths, printed
with exactly two decimal digits. -/
def float2Str (q : ℚ) : String :=
  let n := pyRound (q * 100)
  ⟨(if n < 0 then ['-'] else []) ++
    natChars (n.natAbs / 100) ++
    '.' :: [Nat.digitChar (n.natAbs / 10 % 10), Nat.digitChar (n.natAbs % 10)]⟩

/-- Arithmetic mean of a list of rationals (`np.mean`); also the per-frame
channel average of `ndarray.mean(axis=1)`. -/
def listMean (l : List ℚ) : ℚ := l.sum / l.length

/-- Python `str.split()` with no argument: split on runs of whitespace,
dropping empty tokens.  Structural recursion on fuel; fuel equal to the
length of the list suffices because every step consumes at least one
character. -/
def splitWsAux : ℕ → List Char → List (List Char)
  | 0, _ => []
  | _ + 1, [] => []
  | fuel + 1, c :: cs =>
    if c.isWhitespace then splitWsAux fuel cs
    else (c :: cs.takeWhile (fun x => ¬ x.isWhitespace)) ::
      splitWsAux fuel (cs.dropWhile (fun x => ¬ x.isWhitespace))

/-- Python `str.split()` (whitespace tokenisation). -/
def splitWs (s : List Char) : List (List Char) := splitWsAux s.length s

/-- `word_count = len(transcript.split())` (app.py line 83). -/
def wordCount (t : List Char) : ℕ := (splitWs t).length

/-- `unique_words = len(set(transcript.lower().split()))` (app.py
line 107): number of distinct whitespace tokens after lowercasing. -/
def uniqueWords (t : List Char) : ℕ :=
  ((splitWs (t.map Char.toLower)).dedup).length

/-- Speaking rate, app.py lines 97-101:
`duration_minutes = total_duration / 60`;
`words_per_minute = round(word_count / duration_minutes)` when
`duration_minutes > 0`, else `0`. -/
def words_per_minute (word_count : ℕ) (total_duration : ℚ) : ℤ :=
  let duration_minutes := total_duration / 60
  if 0 < duration_minutes then pyRound ((word_count : ℚ) / duration_minutes)
  else 0

/-- A Python number as stored in the `lexical_richness` variable at
app.py line 108: either the `int` literal `0` or the result of
`round(_, 1)`, a float carrying one decimal digit (value = tenths/10). -/
inductive PyNum where
  | int (n : ℤ)
  | float1 (tenths : ℤ)
deriving DecidableEq

/-- Numeric value of a `PyNum`. -/
def PyNum.val : PyNum → ℚ
  | .int n => (n : ℚ)
  | .float1 t => (t : ℚ) / 10

/-- Python `f"{x}"` applied to a `PyNum`. -/
def pyNumStr : PyNum → String
  | .int n => intStr n
  | .float1 t => float1Str t

/-- Lexical richness, app.py lines 107-108:
`round((unique_words / word_count * 100), 1) if word_count > 0 else 0`. -/
def lexical_richness (t : List Char) : PyNum :=
  if 0 < wordCount t then
    .float1 (pyRound ((uniqueWords t : ℚ) / (wordCount t : ℚ) * 100 * 10))
  else .int 0

/-- Default suggestion, app.py line 113. -/
def lowSuggestion : String :=
  "All indicators are within the normal range. Please continue to maintain a healthy lifestyle."

/-- Medium-rate suggestion, app.py line 117. -/
def mediumSuggestion : String :=
  "Some indicators show slight abnormalities. We recommend that you keep monitoring and consider regular check-ups."

/-- High-risk suggestion, app.py line 120. -/
def highSuggestion : String :=
  "Significant linguistic abnormalities have been detected. We strongly recommend consulting a doctor for a comprehensive evaluation."

/-- Longer-pauses suggestion, app.py line 124. -/
def pauseSuggestion : String :=
  "Your speaking rate is normal, but with slightly longer pauses. We recommend that you keep monitoring and consider regular check-ups."

/-- Rate-based risk rules, app.py lines 112-120: default `'Low Risk'`;
`if words_per_minute < 140 and words_per_minute >= 100` then medium;
`elif words_per_minute < 100` then high.  Returns (risk, suggestion). -/
def rateRisk (wpm : ℤ) : String × String :=
  if wpm < 140 ∧ 100 ≤ wpm then ("Medium Risk", mediumSuggestion)
  else if wpm < 100 then ("High Risk", highSuggestion)
  else ("Low Risk", lowSuggestion)

/-- Full risk classifier, app.py lines 112-124: the rate rules, then
`if avg_pause_duration > 0.9 and risk == 'Low Risk'` escalate to medium
with the longer-pauses suggestion. -/
def classify (wpm : ℤ) (pause : ℚ) : String × String :=
  let r := rateRisk wpm
  if 9 / 10 < pause ∧ r.1 = "Low Risk" then ("Medium Risk", pauseSuggestion)
  else r

/-- The candidate gaps of app.py lines 43-46: for each consecutive pair of
intervals, `intervals[i+1][0] / sr - intervals[i][1] / sr`. -/
def candidateGaps : List (ℕ × ℕ) → ℚ → List ℚ
  | a :: b :: rest, rate =>
    ((b.1 : ℚ) - (a.2 : ℚ)) / rate :: candidateGaps (b :: rest) rate
  | _, _ => []

/-- `analyze_audio_features` (app.py lines 31-54), with
`librosa.effects.split` abstracted as the `split` argument: collect the
gaps between consecutive non-silent intervals, keep those `> 0.1` s, and
return their `np.mean`, or `0.0` when none remain. -/
def analyze_audio_features (split : List ℚ → List (ℕ × ℕ))
    (audio_data : List ℚ) (sr_librosa : ℚ) : ℚ :=
  let non_silent_intervals := split audio_data
  let pauses :=
    (candidateGaps non_silent_intervals sr_librosa).filter
      (fun d => 1 / 10 < d)
  if pauses = [] then 0 else listMean pauses

/-- A decoded waveform as returned by `sf.read` (app.py line 88): either a
1-D mono sample array or a 2-D frames-by-channels array (`ndim > 1`). -/
inductive AudioData where
  | mono (samples : List ℚ)
  | multi (frames : List (List ℚ))

/-- Lines 91-92 of app.py: `if audio_data.ndim > 1: audio_data =
audio_data.mean(axis=1)` — a multi-channel waveform is averaged down to
one channel, a mono waveform is kept as is. -/
def toMono : AudioData → List ℚ
  | .mono samples => samples
  | .multi frames => frames.map listMean

/-- Outcome of the audio-bearing part of a request, abstracting the
external decoding and speech-recognition libraries:
`decodeFail` is `pydub.exceptions.CouldntDecodeError` raised at line 68
(a subclass of `Exception` only, so it reaches the handler at line 141);
`sttUnknown` is `sr.UnknownValueError` (line 137); `sttRequestErr` is
`sr.RequestError` (line 139); `internalErr` is any other exception
(line 141); `ok` carries the transcript, the decoded waveform and its
sample rate. -/
inductive AudioRequest where
  | decodeFail
  | sttUnknown
  | sttRequestErr (msg : String)
  | internalErr
  | ok (transcript : String) (audio : AudioData) (rate : ℚ)

/-- An incoming request: either the multipart field `audio` is absent
(app.py line 60) or it is present with some processing outcome. -/
inductive Request where
  | noAudio
  | withAudio (r : AudioRequest)

/-- The `/analyze` handler (app.py lines 57-143).  A response is the list
of JSON fields (key, value) together with the HTTP status code. -/
def analyze (split : List ℚ → List (ℕ × ℕ)) :
    Request → List (String × String) × ℕ
  | .noAudio => ([("error", "No audio file provided")], 400)
  | .withAudio .decodeFail => ([("error", "An internal error occurred")], 500)
  | .withAudio .sttUnknown =>
    ([("error", "Speech recognition could not understand audio")], 400)
  | .withAudio (.sttRequestErr m) =>
    ([("error", "Speech recognition service error; " ++ m)], 500)
  | .withAudio .internalErr =>
    ([("error", "An internal error occurred")], 500)
  | .withAudio (.ok transcript audio rate) =>
    let word_count := wordCount transcript.data
    let audio_data := toMono audio
    let total_duration := (audio_data.length : ℚ) / rate
    let wpm := words_per_minute word_count total_duration
    let avg_pause_duration := analyze_audio_features split audio_data rate
    let lr := lexical_richness transcript.data
    let rs := classify wpm avg_pause_duration
    ([("speakingRate", intStr wpm ++ " WPM"),
      ("pauseDuration", float2Str avg_pause_duration ++ " s"),
      ("lexicalRichness", pyNumStr lr ++ "%"),
      ("riskLevel", rs.1),
      ("suggestion", rs.2),
      ("transcript", transcript)], 200)

/-- The speaking-rate formula as the spec words it: `round(wordCount /
(duration/60))` when `duration > 0`, else `0` (refinement comparison
target for `words_per_minute`). -/
def wordsPerMinute_spec (t : List Char) (duration : ℚ) : ℤ :=
  if 0 < duration then pyRound ((wordCount t : ℚ) / (duration / 60)) else 0

/-- The lexical-richness formula as the spec words it:
`round(uniqueLowercasedWordCount / wordCount * 100, 1)` when
`wordCount > 0`, else `0` (refinement comparison target for
`lexical_richness`). -/
def lexicalRichness_spec (t : List Char) : ℚ :=
  if 0 < wordCount t then
    (pyRound ((uniqueWords t : ℚ) / (wordCount t : ℚ) * 100 * 10) : ℚ) / 10
  else 0

example : pyRound (5 / 2) = 2 := by norm_num [pyRound, ratFloor]
example : pyRound (7 / 2) = 4 := by norm_num [pyRound, ratFloor]
example : wordCount "hello world hello".data = 3 := by decide
example : uniqueWords "Hello world hello".data = 2 := by decide
example : intStr 142 = "142" := by decide
example : float1Str 667 = "66.7" := by decide
example : float2Str 0 = "0.00" := by norm_num [float2Str, pyRound, ratFloor]; decide

/-- `pyRound 0 = 0`. -/
theorem pyRound_zero : pyRound 0 = 0 := by norm_num [pyRound, ratFloor]

/-- `natChars` never produces an empty character list. -/
theorem natChars_ne_nil (n : ℕ) : natChars n ≠ [] := by
  show natCharsAux (n + 1) n ≠ []
  simp only [natCharsAux]
  split <;> simp

/-- `rateRisk` on the medium band. -/
theorem rateRisk_medium {wpm : ℤ} (h1 : 100 ≤ wpm) (h2 : wpm < 140) :
    rateRisk wpm = ("Medium Risk", mediumSuggestion) := by
  unfold rateRisk
  rw [if_pos (And.intro h2 h1)]

/-- `rateRisk` on the high band. -/
theorem rateRisk_high {wpm : ℤ} (h : wpm < 100) :
    rateRisk wpm = ("High Risk", highSuggestion) := by
  unfold rateRisk
  rw [if_neg (show ¬(wpm < 140 ∧ 100 ≤ wpm) by omega), if_pos h]

/-- `rateRisk` for `wpm ≥ 140`: neither rate rule fires. -/
theorem rateRisk_low {wpm : ℤ} (h : 140 ≤ wpm) :
    rateRisk wpm = ("Low Risk", lowSuggestion) := by
  unfold rateRisk
  rw [if_neg (show ¬(wpm < 140 ∧ 100 ≤ wpm) by omega),
    if_neg (show ¬wpm < 100 by omega)]

/-- The pause rule leaves a non-Low rate tier unchanged. -/
theorem classify_of_not_low {wpm : ℤ} (pause : ℚ)
    (h : (rateRisk wpm).1 ≠ "Low Risk") :
    classify wpm pause = rateRisk wpm := by
  simp only [classify]
  rw [if_neg (fun hc => h hc.2)]

/-- The pause rule does not fire for `pause ≤ 0.9`. -/
theorem classify_of_small_pause {wpm : ℤ} {pause : ℚ} (h : pause ≤ 9 / 10) :
    classify wpm pause = rateRisk wpm := by
  simp only [classify]
  rw [if_neg (fun hc => absurd hc.1 (not_lt.mpr h))]

/-- The pause rule fires exactly on a Low rate tier with `pause > 0.9`. -/
theorem classify_escalate {wpm : ℤ} {pause : ℚ} (h1 : 9 / 10 < pause)
    (h2 : (rateRisk wpm).1 = "Low Risk") :
    classify wpm pause = ("Medium Risk", pauseSuggestion) := by
  simp only [classify]
  rw [if_pos (And.intro h1 h2)]

/-- C1: the rate rules are evaluated in order: `100 ≤ wpm < 140` gives
Medium, else `wpm < 100` gives High, and every `wpm ≥ 140` matches
neither rule, leaving the default Low (absent pause escalation). -/
theorem classify_rate_rules (wpm : ℤ) (pause : ℚ) :
    (100 ≤ wpm → wpm < 140 → (classify wpm pause).1 = "Medium Risk") ∧
    (wpm < 100 → (classify wpm pause).1 = "High Risk") ∧
    (140 ≤ wpm → pause ≤ 9 / 10 → (classify wpm pause).1 = "Low Risk") := by
  refine ⟨fun h1 h2 => ?_, fun h => ?_, fun h1 h2 => ?_⟩
  · rw [classify_of_not_low pause (by rw [rateRisk_medium h1 h2]; decide),
      rateRisk_medium h1 h2]
  · rw [classify_of_not_low pause (by rw [rateRisk_high h]; decide),
      rateRisk_high h]
  · rw [classify_of_small_pause h2, rateRisk_low h1]

/-- C1 witness: `wpm = 99 ↦ High`, `100 ↦ Medium`, `139 ↦ Medium`,
`140 ↦ Low` with no pause escalation (`pause = 0`). -/
theorem classify_rate_rules_witness :
    (classify 99 0).1 = "High Risk" ∧
    (classify 100 0).1 = "Medium Risk" ∧
    (classify 139 0).1 = "Medium Risk" ∧
    (classify 140 0).1 = "Low Risk" :=
  ⟨(classify_rate_rules 99 0).2.1 (by decide),
   (classify_rate_rules 100 0).1 (by decide) (by decide),
   (classify_rate_rules 139 0).1 (by decide) (by decide),
   (classify_rate_rules 140 0).2.2 (by decide) (by norm_num)⟩

/-- C2: the pause rule escalates to Medium (with the longer-pauses
suggestion) exactly when `averagePauseSeconds > 0.9` and the rate rules
left the tier Low; otherwise the rate-rule result is returned
unchanged. -/
theorem classify_pause_escalation (wpm : ℤ) (pause : ℚ) :
    (9 / 10 < pause → (rateRisk wpm).1 = "Low Risk" →
      classify wpm pause = ("Medium Risk", pauseSuggestion)) ∧
    ((rateRisk wpm).1 ≠ "Low Risk" → classify wpm pause = rateRisk wpm) ∧
    (pause ≤ 9 / 10 → classify wpm pause = rateRisk wpm) :=
  ⟨fun h1 h2 => classify_escalate h1 h2,
   fun h => classify_of_not_low pause h,
   fun h => classify_of_small_pause h⟩

/-- C2 witness: `wpm = 95` with `averagePauseSeconds = 1.5` stays High —
the pause rule does not overwrite a rate-rule escalation. -/
theorem classify_pause_escalation_witness :
    classify 95 (3 / 2) = rateRisk 95 ∧ (rateRisk 95).1 = "High Risk" :=
  ⟨(classify_pause_escalation 95 (3 / 2)).2.1 (by decide), by decide⟩

/-- C3 counterexample: a decode failure (`pydub` raising
`CouldntDecodeError` at app.py line 68) is answered with HTTP status 500,
not a client-fault 400. -/
theorem decode_error_counterexample :
    (analyze (fun _ => []) (.withAudio .decodeFail)).2 = 500 ∧
    (analyze (fun _ => []) (.withAudio .decodeFail)).2 ≠ 400 := by decide

/-- C3 amended: an unparseable or empty audio payload reaches the generic
`except Exception` handler (app.py lines 141-143), so the caller receives
the opaque server-fault response `("An internal error occurred", 500)`,
not a 400-equivalent client-fault response. -/
theorem decode_error_maps_to_internal_500 (split : List ℚ → List (ℕ × ℕ)) :
    analyze split (.withAudio .decodeFail) =
      ([("error", "An internal error occurred")], 500) := rfl

/-- There are exactly `len(intervals) - 1` candidate gaps. -/
theorem candidateGaps_length (l : List (ℕ × ℕ)) (rate : ℚ) :
    (candidateGaps l rate).length = l.length - 1 := by
  induction l with
  | nil => rfl
  | cons a t ih =>
    cases t with
    | nil => rfl
    | cons b r =>
      simp only [candidateGaps, List.length_cons] at ih ⊢
      omega

/-- Gap `i` runs from interval `i`'s end to interval `i + 1`'s start,
divided by the sample rate. -/
theorem candidateGaps_get (l : List (ℕ × ℕ)) (rate : ℚ) :
    ∀ (i : ℕ) (h2 : i < (candidateGaps l rate).length)
      (ha : i < l.length) (hb : i + 1 < l.length),
      (candidateGaps l rate).get ⟨i, h2⟩ =
        (((l.get ⟨i + 1, hb⟩).1 : ℚ) - ((l.get ⟨i, ha⟩).2 : ℚ)) / rate := by
  induction l with
  | nil => intro i h2; exact absurd h2 (by simp [candidateGaps])
  | cons a t ih =>
    cases t with
    | nil => intro i h2; exact absurd h2 (by simp [candidateGaps])
    | cons b r =>
      intro i h2 ha hb
      cases i with
      | zero => rfl
      | succ j =>
        simp only [candidateGaps, List.get_cons_succ]
        have ha2 : j < (b :: r).length := by
          simp only [List.length_cons] at ha ⊢
          omega
        have hb2 : j + 1 < (b :: r).length := by
          simp only [List.length_cons] at hb ⊢
          omega
        exact ih j (by simpa [candidateGaps] using h2) ha2 hb2

/-- C4: for every waveform the Segmenter derives exactly
`len(intervals) - 1` candidate gaps, gap `i` running from interval `i`'s
end to interval `i + 1`'s start in seconds; it retains only gaps strictly
greater than `0.1` s and returns their arithmetic mean, and with zero or
one detected interval it returns `0.0`. -/
theorem segmenter_gap_semantics (split : List ℚ → List (ℕ × ℕ))
    (audio_data : List ℚ) (rate : ℚ) :
    (candidateGaps (split audio_data) rate).length =
      (split audio_data).length - 1 ∧
    (∀ (i : ℕ) (h2 : i < (candidateGaps (split audio_data) rate).length)
      (ha : i < (split audio_data).length)
      (hb : i + 1 < (split audio_data).length),
      (candidateGaps (split audio_data) rate).get ⟨i, h2⟩ =
        ((((split audio_data).get ⟨i + 1, hb⟩).1 : ℚ) -
          (((split audio_data).get ⟨i, ha⟩).2 : ℚ)) / rate) ∧
    (((candidateGaps (split audio_data) rate).filter (fun d => 1 / 10 < d))
        ≠ [] →
      analyze_audio_features split audio_data rate =
        ((candidateGaps (split audio_data) rate).filter
            (fun d => 1 / 10 < d)).sum /
        ((candidateGaps (split audio_data) rate).filter
            (fun d => 1 / 10 < d)).length) ∧
    ((split audio_data).length ≤ 1 →
      analyze_audio_features split audio_data rate = 0) := by
  refine ⟨candidateGaps_length _ _, candidateGaps_get _ _, fun h => ?_,
    fun h => ?_⟩
  · simp only [analyze_audio_features]
    rw [if_neg h]
    rfl
  · have hnil : candidateGaps (split audio_data) rate = [] := by
      have := candidateGaps_length (split audio_data) rate
      exact List.length_eq_zero.mp (by omega)
    simp only [analyze_audio_features, hnil, List.filter_nil, if_pos]

/-- C4 witness: intervals `[(0,5), (7,20), (40,45)]` at rate `10` give the
gaps `[0.2, 2.0]`, both retained, with mean `1.1`. -/
theorem segmenter_gap_semantics_witness :
    (candidateGaps [(0, 5), (7, 20), (40, 45)] 10).get ⟨0, by decide⟩ =
      (((7 : ℕ) : ℚ) - ((5 : ℕ) : ℚ)) / 10 ∧
    analyze_audio_features (fun _ => [(0, 5), (7, 20), (40, 45)]) [] 10 =
      ((candidateGaps [(0, 5), (7, 20), (40, 45)] 10).filter
          (fun d => 1 / 10 < d)).sum /
      ((candidateGaps [(0, 5), (7, 20), (40, 45)] 10).filter
          (fun d => 1 / 10 < d)).length :=
  ⟨(segmenter_gap_semantics (fun _ => [(0, 5), (7, 20), (40, 45)]) [] 10).2.1
      0 (by decide) (by decide) (by decide),
   (segmenter_gap_semantics (fun _ => [(0, 5), (7, 20), (40, 45)]) [] 10).2.2.1
      (by norm_num [candidateGaps, List.filter]; decide)⟩

/-- C10: when two or more intervals are found but every candidate gap is
at most `0.1` s, the retained list is empty and the Segmenter returns
`0.0`. -/
theorem segmenter_all_small_gaps_zero (split : List ℚ → List (ℕ × ℕ))
    (audio_data : List ℚ) (rate : ℚ)
    (_h2 : 2 ≤ (split audio_data).length)
    (hall : ∀ d ∈ candidateGaps (split audio_data) rate, d ≤ 1 / 10) :
    analyze_audio_features split audio_data rate = 0 := by
  simp only [analyze_audio_features]
  rw [if_pos]
  rw [List.filter_eq_nil_iff]
  intro a ha
  simpa using not_lt.mpr (hall a ha)

/-- C10 witness: intervals `[(0,2), (3,4), (5,9)]` at rate `100` have gaps
`[0.01, 0.01]`, all below the threshold, so the result is `0`. -/
theorem segmenter_all_small_gaps_zero_witness :
    analyze_audio_features (fun _ => [(0, 2), (3, 4), (5, 9)]) [] 100 = 0 :=
  segmenter_all_small_gaps_zero (fun _ => [(0, 2), (3, 4), (5, 9)]) [] 100
    (by decide)
    (by
      intro d hd
      simp only [candidateGaps, List.mem_cons, List.not_mem_nil, or_false]
        at hd
      rcases hd with h | h <;> rw [h] <;> norm_num)

/-- C5: the code's speaking-rate and lexical-richness computations agree
with the spec formulas `round(wordCount / (duration/60))` guarded by
`duration > 0` and `round(unique / wordCount * 100, 1)` guarded by
`wordCount > 0`; in particular `wordCount = 0` with `duration > 0` gives
`wordsPerMinute = 0` and `lexicalRichnessPercent = 0`. -/
theorem aggregator_formulas (t : List Char) (d : ℚ) :
    words_per_minute (wordCount t) d = wordsPerMinute_spec t d ∧
    (lexical_richness t).val = lexicalRichness_spec t ∧
    (wordCount t = 0 →
      (0 < d → words_per_minute (wordCount t) d = 0) ∧
      (lexical_richness t).val = 0) := by
  have hiff : (0 : ℚ) < d / 60 ↔ 0 < d := by
    constructor
    · intro h
      rcases div_pos_iff.mp h with ⟨h1, -⟩ | ⟨-, h2⟩
      · exact h1
      · norm_num at h2
    · intro h
      positivity
  refine ⟨?_, ?_, fun h0 => ⟨fun hd => ?_, ?_⟩⟩
  · simp only [words_per_minute, wordsPerMinute_spec]
    by_cases hd : 0 < d
    · rw [if_pos (hiff.mpr hd), if_pos hd]
    · rw [if_neg (fun hc => hd (hiff.mp hc)), if_neg hd]
  · simp only [lexical_richness, lexicalRichness_spec]
    by_cases hw : 0 < wordCount t
    · rw [if_pos hw, if_pos hw]
      rfl
    · rw [if_neg hw, if_neg hw]
      simp [PyNum.val]
  · simp only [words_per_minute]
    rw [if_pos (hiff.mpr hd), h0]
    norm_num [pyRound_zero]
  · simp only [lexical_richness]
    rw [if_neg (by omega)]
    simp [PyNum.val]

/-- C5 witness: the empty transcript at duration 1 second: zero word
count, `wordsPerMinute = 0` and `lexicalRichnessPercent = 0`. -/
theorem aggregator_formulas_witness :
    wordCount "".data = 0 ∧
    words_per_minute (wordCount "".data) 1 = 0 ∧
    (lexical_richness "".data).val = 0 :=
  ⟨by decide,
   ((aggregator_formulas "".data 1).2.2 (by decide)).1 (by norm_num),
   ((aggregator_formulas "".data 1).2.2 (by decide)).2⟩

/-- C7: every response is all-or-nothing: its fields are either exactly
the single `error` field or exactly the six success fields; a request
with no audio payload is rejected with the error-only 400 response, and
that response does not depend on any downstream processing (here: on the
segmentation function). -/
theorem analyze_all_or_nothing (split split2 : List ℚ → List (ℕ × ℕ))
    (req : Request) :
    ((analyze split req).1.map Prod.fst = ["error"] ∨
      (analyze split req).1.map Prod.fst =
        ["speakingRate", "pauseDuration", "lexicalRichness", "riskLevel",
         "suggestion", "transcript"]) ∧
    analyze split Request.noAudio =
      ([("error", "No audio file provided")], 400) ∧
    analyze split Request.noAudio = analyze split2 Request.noAudio := by
  refine ⟨?_, rfl, rfl⟩
  cases req with
  | noAudio => left; rfl
  | withAudio r =>
    cases r with
    | decodeFail => left; rfl
    | sttUnknown => left; rfl
    | sttRequestErr m => left; rfl
    | internalErr => left; rfl
    | ok t a rate => right; rfl

/-- C8: a multi-channel waveform is averaged down to one channel
(sample-wise `mean(axis=1)`) before any duration or pause computation:
the whole handler run on multi-channel audio equals the run on the
averaged mono waveform. -/
theorem analyze_multichannel_mono (split : List ℚ → List (ℕ × ℕ))
    (frames : List (List ℚ)) (rate : ℚ) (t : String) :
    toMono (AudioData.multi frames) = frames.map listMean ∧
    analyze split (.withAudio (.ok t (.multi frames) rate)) =
      analyze split (.withAudio (.ok t (.mono (frames.map listMean)) rate)) :=
  ⟨rfl, rfl⟩

/-- The rate rules only ever produce one of the three tier labels. -/
theorem rateRisk_fst_mem (wpm : ℤ) :
    (rateRisk wpm).1 ∈ ["Low Risk", "Medium Risk", "High Risk"] := by
  unfold rateRisk
  split_ifs <;> simp

/-- The classifier only ever produces one of the three tier labels. -/
theorem classify_fst_mem (wpm : ℤ) (pause : ℚ) :
    (classify wpm pause).1 ∈ ["Low Risk", "Medium Risk", "High Risk"] := by
  simp only [classify]
  split_ifs with h
  · simp
  · exact rateRisk_fst_mem wpm

/-- C6 (amended): a successful analysis returns exactly the six fields
`speakingRate` (an integer followed by `" WPM"`), `pauseDuration` (a
two-decimal float followed by `" s"`), `lexicalRichness` (a number
followed by `"%"` — a one-decimal float when the transcript has words,
but the bare integer `"0"` when `wordCount = 0`), `riskLevel` (one of the
three tier labels), `suggestion`, and `transcript` with its original
casing. -/
theorem analyze_success_fields (split : List ℚ → List (ℕ × ℕ))
    (t : String) (a : AudioData) (rate : ℚ) :
    ∃ (n : ℤ) (q : ℚ) (risk sugg lex : String),
      analyze split (.withAudio (.ok t a rate)) =
        ([("speakingRate", intStr n ++ " WPM"),
          ("pauseDuration", float2Str q ++ " s"),
          ("lexicalRichness", lex ++ "%"),
          ("riskLevel", risk),
          ("suggestion", sugg),
          ("transcript", t)], 200) ∧
      risk ∈ ["Low Risk", "Medium Risk", "High Risk"] ∧
      ((wordCount t.data = 0 ∧ lex = "0") ∨
        (0 < wordCount t.data ∧ ∃ m : ℤ, lex = float1Str m)) := by
  refine ⟨words_per_minute (wordCount t.data) (((toMono a).length : ℚ) / rate),
    analyze_audio_features split (toMono a) rate,
    (classify (words_per_minute (wordCount t.data)
        (((toMono a).length : ℚ) / rate))
      (analyze_audio_features split (toMono a) rate)).1,
    (classify (words_per_minute (wordCount t.data)
        (((toMono a).length : ℚ) / rate))
      (analyze_audio_features split (toMono a) rate)).2,
    pyNumStr (lexical_richness t.data), rfl, classify_fst_mem _ _, ?_⟩
  by_cases h : 0 < wordCount t.data
  · refine Or.inr ⟨h, pyRound ((uniqueWords t.data : ℚ) /
      (wordCount t.data : ℚ) * 100 * 10), ?_⟩
    simp only [lexical_richness]
    rw [if_pos h]
    rfl
  · refine Or.inl ⟨by omega, ?_⟩
    simp only [lexical_richness]
    rw [if_neg h]
    decide

/-- C6 counterexample: for the empty transcript (`wordCount = 0`) the
`lexicalRichness` field is the string `"0%"`, which is not of the form
`<float with 1 decimal>%`: no one-decimal float prints as `"0"`. -/
theorem lexical_field_counterexample :
    (analyze (fun _ => []) (.withAudio (.ok "" (.mono []) 1))).1.get
        ⟨2, by decide⟩ = ("lexicalRichness", "0%") ∧
    ¬ ∃ m : ℤ, ("0%" : String) = float1Str m ++ "%" := by
  refine ⟨by decide, ?_⟩
  rintro ⟨m, hm⟩
  have hlen : ("0%" : String).data.length = (float1Str m ++ "%").data.length := by
    rw [hm]
  have hnc : 1 ≤ (natChars (m.natAbs / 10)).length :=
    List.length_pos.mpr (natChars_ne_nil _)
  rw [String.data_append, List.length_append] at hlen
  have hf : (float1Str m).data =
      (if m < 0 then ['-'] else []) ++
        natChars (m.natAbs / 10) ++ '.' :: [Nat.digitChar (m.natAbs % 10)] :=
    rfl
  rw [hf] at hlen
  simp only [List.length_append, List.length_cons, List.length_singleton,
    List.length_nil] at hlen
  omega
